import Mathlib

/-!
Verification development for the RockRunner dispatch system.

The definitions below are a shallow embedding of the JavaScript source:

* `src/netlify/functions/dispatch.js` — delivery lifecycle API
  (create / update / batch finalize / cancel, inventory depletion);
* `src/unnamed/part_003` (notify.js) — en-route transition applied by the
  notification handler;
* `src/unnamed/part_002` (capacity.js) — daily capacity aggregation;
* `src/netlify/functions/trucks.js` and the two further trucks handlers in
  `src/unnamed/part_000` — fleet registration and duplicate checks;
* `src/netlify/functions/calculate-loads.js` — multi-load breakdown.

Conventions of the embedding:

* Mongo documents become Lean structures; `null` / absent string fields are
  `Option String`; JS numbers are modelled as exact rationals `ℚ`.
* Timestamps (`new Date()`) carry no information the claims depend on, so a
  timestamp field is modelled as a `Bool` recording whether it has been set.
* A Mongo `$push` appends at the end of the list, so the most recent
  statusHistory entry is the last element.
* JS `Math.round x` is `⌊x + 1/2⌋` and `Number.toFixed` rounds ties away
  from zero for positive arguments; both are modelled with `Int.floor`.
-/

namespace RockRunner

/-- An entry of a statusHistory audit list, as pushed by dispatch.js
(fields status / timestamp / updatedBy / notes, with the timestamp left out
of the model). -/
structure HistoryEntry where
  status : String
  updatedBy : String
  notes : String
deriving DecidableEq, Repr

/-- A delivery_schedule document, with the fields the dispatch endpoints
read or write (dispatch.js lines 86-153). Timestamp fields are `Bool`
flags recording whether the source ever set them. -/
structure Delivery where
  productId : Option String := none
  quantity : ℚ := 0
  deliveryDate : String := ""
  timeWindow : Option String := none
  hour : Option Nat := none
  truckId : Option String := none
  truckNumber : Option String := none
  driverId : Option String := none
  driverName : Option String := none
  stopOrder : Option Nat := none
  status : String := "UNASSIGNED"
  scheduledAt : Bool := false
  enRouteAt : Bool := false
  deliveredAt : Bool := false
  cancelledAt : Bool := false
  deliveryPhoto : Option String := none
  deliveryNotes : String := ""
  scheduleSmsSent : Bool := false
  enRouteSmsSent : Bool := false
  enRouteEmailSent : Bool := false
  deliveredSmsSent : Bool := false
  statusHistory : List HistoryEntry := []
deriving DecidableEq, Repr

/-- The POST body of dispatch.js (create). `none` models an absent or
falsy field, exactly matching the `body.x || default` reads. -/
structure CreateBody where
  productId : Option String := none
  quantity : ℚ := 0
  deliveryDate : String := ""
  timeWindow : Option String := none
  hour : Option Nat := none
  truckId : Option String := none
  truckNumber : Option String := none
  driverId : Option String := none
  driverName : Option String := none
  stopOrder : Option Nat := none
  deliveryNotes : String := ""
  createdBy : Option String := none
deriving Repr

/-- POST /dispatch (dispatch.js lines 83-166): builds the new delivery
document. The status is SCHEDULED when a truckId is supplied, else
UNASSIGNED, and statusHistory starts with one matching entry. -/
def createDelivery (b : CreateBody) : Delivery :=
  let st := if b.truckId.isSome then "SCHEDULED" else "UNASSIGNED"
  { productId := b.productId
    quantity := b.quantity
    deliveryDate := b.deliveryDate
    timeWindow := b.timeWindow
    hour := b.hour
    truckId := b.truckId
    truckNumber := b.truckNumber
    driverId := b.driverId
    driverName := b.driverName
    stopOrder := b.stopOrder
    status := st
    scheduledAt := b.truckId.isSome
    deliveryNotes := b.deliveryNotes
    statusHistory := [{ status := st
                        updatedBy := b.createdBy.getD "system"
                        notes := "Order created" }] }

/-- The PUT body of dispatch.js (single delivery update). A field of type
`Option (Option α)` distinguishes an absent key (`none`, the JS
`undefined` check fails) from a present key holding `null`
(`some none`) or a value (`some (some v)`). -/
structure PutBody where
  truckIdField : Option (Option String) := none
  truckNumber : Option String := none
  driverId : Option String := none
  driverName : Option String := none
  timeWindowField : Option (Option String) := none
  hour : Option Nat := none
  stopOrderField : Option (Option Nat) := none
  status : Option String := none
  notes : Option String := none
  deliveryPhoto : Option String := none
  deliveryNotes : Option String := none
  updatedBy : Option String := none
  enRouteSmsSent : Bool := false
deriving Repr

/-- The status put into the single history entry of a PUT, if any: the
truck-assignment block writes SCHEDULED (when the assigned truckId is
truthy and the requested status is not UNASSIGNED), and the status-change
block then overwrites it with the requested status
(dispatch.js lines 230-288). -/
def putHistoryStatus (b : PutBody) : Option String :=
  match b.status with
  | some s => some s
  | none =>
    match b.truckIdField with
    | some (some _) => some "SCHEDULED"
    | _ => none

/-- The notes of the history entry of a PUT (body.notes wins for a status
change; the truck-assignment block writes an assignment note). -/
def putHistoryNotes (b : PutBody) : String :=
  match b.status with
  | some s => b.notes.getD ("Status changed to " ++ s)
  | none =>
    match b.truckIdField with
    | some (some t) => "Assigned to truck " ++ (b.truckNumber.getD t)
    | _ => ""

/-- Truck-assignment block of the PUT (dispatch.js lines 233-244): when
the truckId key is present, the assignment fields are written; a truthy
truckId together with a requested status other than UNASSIGNED
additionally forces status SCHEDULED and sets scheduledAt. -/
def putTruckStage (b : PutBody) (d : Delivery) : Delivery :=
  match b.truckIdField with
  | none => d
  | some tid =>
    let base := { d with truckId := tid
                         truckNumber := b.truckNumber
                         driverId := b.driverId
                         driverName := b.driverName }
    match tid with
    | some _ =>
      if b.status = some "UNASSIGNED" then base
      else { base with status := "SCHEDULED", scheduledAt := true }
    | none => base

/-- Time-window block of the PUT (dispatch.js lines 247-250). -/
def putTimeStage (b : PutBody) (d : Delivery) : Delivery :=
  match b.timeWindowField with
  | none => d
  | some tw => { d with timeWindow := tw, hour := b.hour }

/-- Stop-order block of the PUT (dispatch.js lines 253-255). -/
def putStopStage (b : PutBody) (d : Delivery) : Delivery :=
  match b.stopOrderField with
  | none => d
  | some so => { d with stopOrder := so }

/-- Status-change block of the PUT (dispatch.js lines 258-278): writes
the requested status verbatim, with the per-status timestamp and
proof-of-delivery side writes. No check of the current status occurs. -/
def putStatusStage (b : PutBody) (d : Delivery) : Delivery :=
  match b.status with
  | none => d
  | some s =>
    let e1 := { d with status := s }
    let e2 := if s = "EN_ROUTE" then { e1 with enRouteAt := true } else e1
    let e3 :=
      if s = "DELIVERED" then
        { e2 with
          deliveredAt := true
          deliveryPhoto := (match b.deliveryPhoto with
                            | some p => some p
                            | none => e2.deliveryPhoto)
          deliveryNotes := b.deliveryNotes.getD e2.deliveryNotes }
      else e2
    if s = "CANCELLED" then { e3 with cancelledAt := true } else e3

/-- SMS-tracking block of the PUT (dispatch.js line 281). -/
def putSmsStage (b : PutBody) (d : Delivery) : Delivery :=
  if b.enRouteSmsSent then { d with enRouteSmsSent := true } else d

/-- History push of the PUT (dispatch.js lines 284-288): one entry is
appended exactly when a block above prepared a status for it. -/
def putHistoryStage (b : PutBody) (d : Delivery) : Delivery :=
  match putHistoryStatus b with
  | some hs =>
    { d with statusHistory := d.statusHistory ++
        [{ status := hs
           updatedBy := b.updatedBy.getD "system"
           notes := putHistoryNotes b }] }
  | none => d

/-- PUT /dispatch single-delivery update (dispatch.js lines 223-293):
the sequential composition of the blocks above, exactly as the handler
builds its single update document. No state-machine validation of the
current status occurs anywhere in this path. -/
def dispatchPut (b : PutBody) (d : Delivery) : Delivery :=
  putHistoryStage b (putSmsStage b (putStatusStage b
    (putStopStage b (putTimeStage b (putTruckStage b d)))))

/-- Mongo updateOne with a `$inc` of `-q` on the first inventory document
matching the productId (dispatch.js lines 299-303); no match, no change. -/
def invDec (pid : String) (q : ℚ) : List (String × ℚ) → List (String × ℚ)
  | [] => []
  | e :: rest => if e.1 = pid then (e.1, e.2 - q) :: rest else e :: invDec pid q rest

/-- The full PUT handler effect on one delivery and the inventory
collection: after the update, whenever the request body carried status
DELIVERED and the delivery references a material, the inventory quantity
for that product is decremented by the delivery quantity — on every such
request, with no idempotence guard (dispatch.js lines 295-305). -/
def dispatchPutHandler (b : PutBody) (d : Delivery) (inv : List (String × ℚ)) :
    Delivery × List (String × ℚ) :=
  let d2 := dispatchPut b d
  if b.status = some "DELIVERED" then
    match d2.productId with
    | some pid => (d2, invDec pid d2.quantity inv)
    | none => (d2, inv)
  else (d2, inv)

/-- DELETE /dispatch (dispatch.js lines 315-341): unconditionally sets
status CANCELLED, sets cancelledAt, and pushes a CANCELLED history entry;
the current status is never consulted and the handler always reports
success. -/
def dispatchCancel (actor reason : Option String) (d : Delivery) : Delivery :=
  { d with
    status := "CANCELLED"
    cancelledAt := true
    statusHistory := d.statusHistory ++
      [{ status := "CANCELLED"
         updatedBy := actor.getD "admin"
         notes := reason.getD "Cancelled" }] }

/-- One document of the updateMany of the batch finalize action
(dispatch.js lines 181-194): a SCHEDULED delivery on the date whose
schedule SMS flag is unset gets the flag set and a FINALIZED history
entry pushed — the status field itself is not changed. -/
def finalizeOne (date : String) (updatedBy : Option String) (d : Delivery) : Delivery :=
  if d.deliveryDate = date ∧ d.status = "SCHEDULED" ∧ d.scheduleSmsSent = false then
    { d with
      scheduleSmsSent := true
      statusHistory := d.statusHistory ++
        [{ status := "FINALIZED"
           updatedBy := updatedBy.getD "dispatcher"
           notes := "Schedule finalized - SMS queued" }] }
  else d

/-- Batch finalize over the whole collection. -/
def finalizeSchedule (date : String) (updatedBy : Option String)
    (ds : List Delivery) : List Delivery :=
  ds.map (finalizeOne date updatedBy)

/-- The en-route branch of the notification handler (part_003 lines
316-335): after the messages are attempted it sets status EN_ROUTE,
enRouteAt and the channel flags, and pushes an EN_ROUTE history entry —
for any current status, with no transition check. `smsOk` / `emailOk`
are the reported outcomes of the external channels. -/
def notifyEnRoute (driverId : Option String) (smsOk emailOk : Bool)
    (d : Delivery) : Delivery :=
  { d with
    status := "EN_ROUTE"
    enRouteAt := true
    enRouteSmsSent := smsOk
    enRouteEmailSent := emailOk
    statusHistory := d.statusHistory ++
      [{ status := "EN_ROUTE"
         updatedBy := driverId.getD "driver"
         notes := "Driver en route" }] }

/-- The spec invariant that a delivery status equals the status of the
most recent statusHistory entry. -/
def statusInv (d : Delivery) : Prop :=
  d.statusHistory.getLast?.map (fun h => h.status) = some d.status

instance (d : Delivery) : Decidable (statusInv d) := by
  unfold statusInv; infer_instance

/-! Fleet registry (trucks handlers) -/

/-- A trucks document (trucks.js lines 62-70 and the variants in
part_000). -/
structure Truck where
  truckNumber : String := ""
  type : String := ""
  capacity : ℚ := 0
  active : Bool := true
  notes : String := ""
deriving DecidableEq, Repr

/-- Duplicate check of src/netlify/functions/trucks.js line 53:
findOne on the exact (case-sensitive, untrimmed) truckNumber among
documents with active equal to true. -/
def dupCheckExactActive (roster : List Truck) (num : String) : Bool :=
  roster.any (fun t => t.truckNumber = num ∧ t.active)

/-- Duplicate check of the first trucks handler in part_000 (line 62):
findOne on the exact truckNumber with no active filter at all. -/
def dupCheckExact (roster : List Truck) (num : String) : Bool :=
  roster.any (fun t => t.truckNumber = num)

/-- Lowercasing written on the character list, modelling the `i` flag of
the duplicate-check regex (the built-in String.toLower is opaque to the
kernel, so proofs could not evaluate it). -/
def lowerStr (s : String) : String := String.mk (s.data.map Char.toLower)

/-- Space-trimming written on the character list, modelling the
JavaScript String.trim call on the proposed truck number. -/
def trimStr (s : String) : String :=
  String.mk (((s.data.dropWhile (fun c => c = ' ')).reverse.dropWhile
    (fun c => c = ' ')).reverse)

/-- Duplicate check of the second trucks handler in part_000 (lines
158-162): an anchored case-insensitive regex built from the trimmed
input, matched against the stored truckNumber of non-deactivated
documents. For truck numbers free of regex metacharacters this is
case-insensitive equality of the stored number against the trimmed
input. -/
def dupCheckCaseInsensitive (roster : List Truck) (num : String) : Bool :=
  roster.any (fun t => t.active ∧ lowerStr t.truckNumber = lowerStr (trimStr num))

/-- POST of src/netlify/functions/trucks.js (lines 41-80): reject a falsy
number or capacity, reject when the exact-match duplicate check fires,
else insert the number verbatim. -/
def registerTruckV1 (roster : List Truck) (num : String) (cap : ℚ) :
    Except String (List Truck) :=
  if num = "" ∨ cap = 0 then .error "Truck number and capacity required"
  else if dupCheckExactActive roster num then .error "Truck number already exists"
  else .ok (roster ++ [{ truckNumber := num, capacity := cap }])

/-- POST of the second trucks handler in part_000 (lines 150-182): reject
a falsy number or capacity, reject when the case-insensitive duplicate
check fires, else insert the trimmed number. -/
def registerTruckV3 (roster : List Truck) (num : String) (cap : ℚ) :
    Except String (List Truck) :=
  if num = "" ∨ cap = 0 then .error "Truck number and capacity required"
  else if dupCheckCaseInsensitive roster num then .error "already exists in roster"
  else .ok (roster ++ [{ truckNumber := trimStr num, capacity := cap }])

/-! Capacity aggregation (part_002, capacity.js) -/

/-- JavaScript Math.round on a rational: floor of x + 1/2 (ties go up). -/
def jsRound (x : ℚ) : ℤ := Int.floor (x + 1/2)

/-- Rounding to one decimal place as in capacity.js lines 113-114:
Math.round of ten times the value, divided by ten. -/
def round1 (x : ℚ) : ℚ := (jsRound (x * 10) : ℚ) / 10

/-- Rounding to two decimal places as in calculate-loads.js
(parseFloat of toFixed 2; toFixed rounds ties away from zero for
positive arguments, matching floor of 100 x + 1/2 on the inputs the
claims quantify over). -/
def round2 (x : ℚ) : ℚ := (jsRound (x * 100) : ℚ) / 100

/-- The per-operating-day capacity record emitted by capacity.js
(lines 106-121). -/
structure DayCapacity where
  totalTrucks : Nat
  trucksUsed : Nat
  trucksAvailable : Nat
  totalCapacityTons : ℚ
  scheduledTons : ℚ
  availableTons : ℚ
  deliveryCount : Nat
  maxDeliveries : Nat
  availableSlots : Nat
  status : String
deriving DecidableEq, Repr

/-- Configured deliveries-per-truck constant (capacity.js line 13). -/
def DELIVERIES_PER_TRUCK : Nat := 5

/-- Active trucks: capacity.js line 33 filters on active not equal to
false. -/
def activeTrucks (ts : List Truck) : List Truck := ts.filter (fun t => t.active)

/-- Sum of active truck capacities with the falsy-capacity default of 24
(capacity.js line 35). -/
def fleetCapacity (ts : List Truck) : ℚ :=
  ((activeTrucks ts).map (fun t => if t.capacity = 0 then 24 else t.capacity)).sum

/-- A day's deliveries: same deliveryDate and not CANCELLED
(capacity.js lines 39-49). -/
def delsForDay (ds : List Delivery) (date : String) : List Delivery :=
  ds.filter (fun d => d.deliveryDate = date ∧ d.status ≠ "CANCELLED")

/-- Full-precision sum of the quantities of a day's deliveries
(capacity.js line 90). -/
def scheduledTonsRaw (dayDels : List Delivery) : ℚ :=
  (dayDels.map (fun d => d.quantity)).sum

/-- Count of distinct non-null truckIds of a day's deliveries
(capacity.js line 92). -/
def trucksUsedCount (dayDels : List Delivery) : Nat :=
  ((dayDels.filterMap (fun d => d.truckId)).dedup).length

/-- Status classification by remaining-capacity fraction
(capacity.js lines 97-101). -/
def capacityStatus (pct : ℚ) : String :=
  if pct > 3/10 then "available" else if pct > 1/10 then "limited" else "full"

/-- The operating-day branch of capacity.js (lines 89-121): derives the
DayCapacity record for one non-Sunday day from the active trucks and the
day's non-cancelled deliveries. scheduledTons and availableTons are
rounded to one decimal in the output; totalCapacityTons is emitted at
full precision. -/
def computeDay (ts : List Truck) (dayDels : List Delivery) : DayCapacity :=
  let totalTrucks := (activeTrucks ts).length
  let totalCap := fleetCapacity ts
  let maxDel := totalTrucks * DELIVERIES_PER_TRUCK
  let scheduled := scheduledTonsRaw dayDels
  let used := trucksUsedCount dayDels
  let available := max 0 (totalCap - scheduled)
  let pct := if totalCap > 0 then available / totalCap else 0
  { totalTrucks := totalTrucks
    trucksUsed := used
    trucksAvailable := totalTrucks - used
    totalCapacityTons := totalCap
    scheduledTons := round1 scheduled
    availableTons := round1 available
    deliveryCount := dayDels.length
    maxDeliveries := maxDel
    availableSlots := maxDel - dayDels.length
    status := capacityStatus pct }

/-! Assignment committer -/

/-- One proposed assignment of the batch the committer receives. -/
structure AssignmentItem where
  deliveryId : String
  truckId : String
  truckNumber : String
  stopOrder : Nat := 1
  driverId : Option String := none
  driverName : Option String := none
  timeWindow : Option String := none
deriving DecidableEq, Repr

/-- The batch summary the committer returns; a perItemErrors entry is the
1-based item index with the unknown deliveryId. -/
structure ApplyResult where
  appliedCount : Nat
  totalCount : Nat
  perItemErrors : List (Nat × String)
deriving DecidableEq, Repr

/-- Modelled from the spec: the write of one assignment item of
applyAssignments, whose implementation is absent from src (the planner
endpoint rocky-suggests.js produces the batch but performs no DB
writes). Per the spec it looks the delivery up by id, sets the
assignment fields, sets status SCHEDULED unless the delivery is already
terminal, and appends a history entry attributed to the planning
source; an unknown id is the per-item failure. -/
def applyItem (it : AssignmentItem) :
    List (String × Delivery) → Option (List (String × Delivery))
  | [] => none
  | (k, d) :: rest =>
    if k = it.deliveryId then
      let newStatus :=
        if d.status = "DELIVERED" ∨ d.status = "CANCELLED" then d.status
        else "SCHEDULED"
      some ((k,
        { d with
          truckId := some it.truckId
          truckNumber := some it.truckNumber
          driverId := it.driverId
          driverName := it.driverName
          stopOrder := some it.stopOrder
          timeWindow := it.timeWindow.orElse (fun _ => d.timeWindow)
          status := newStatus
          scheduledAt := true
          statusHistory := d.statusHistory ++
            [{ status := newStatus
               updatedBy := "automated planner"
               notes := "Assigned by planner batch" }] }) :: rest)
    else (applyItem it rest).map (fun r => (k, d) :: r)

/-- Modelled from the spec: one step of the committer batch loop — a
successful item write replaces the store and bumps appliedCount, a
failed lookup appends its 1-based index and id to perItemErrors and
leaves the store as it was; either way the loop continues. -/
def applyStep (acc : List (String × Delivery) × Nat × List (Nat × String))
    (p : Nat × AssignmentItem) :
    List (String × Delivery) × Nat × List (Nat × String) :=
  match applyItem p.2 acc.1 with
  | some store2 => (store2, acc.2.1 + 1, acc.2.2)
  | none => (acc.1, acc.2.1, acc.2.2 ++ [(p.1, p.2.deliveryId)])

/-- Modelled from the spec: applyAssignments applies each item of the
batch independently; a failed lookup is recorded in perItemErrors and the
remaining items are still applied, never aborting the batch. -/
def applyAssignments (store : List (String × Delivery))
    (items : List AssignmentItem) :
    List (String × Delivery) × ApplyResult :=
  let res := (items.enum.map (fun p => (p.1 + 1, p.2))).foldl applyStep
    (store, 0, [])
  (res.1, { appliedCount := res.2.1
            totalCount := items.length
            perItemErrors := res.2.2 })

/-! Multi-load breakdown (calculate-loads.js) -/

/-- The loop of calculateLoads (calculate-loads.js lines 21-25): each
iteration takes the smaller of the remaining tonnage and the truck
capacity, rounded to two decimals, and subtracts it. `n` is the number
of iterations left and `i` the 1-based loadNumber. -/
def loadsLoop (cap : ℚ) : Nat → ℚ → Nat → List (Nat × ℚ)
  | 0, _, _ => []
  | n + 1, remaining, i =>
    let loadTons := round2 (min remaining cap)
    (i, loadTons) :: loadsLoop cap n (round2 (remaining - loadTons)) (i + 1)

/-- calculateLoads (calculate-loads.js lines 17-27): the number of loads
is the ceiling of totalTons over truckCapacity, and the loads are built
by the loop above starting from totalTons rounded to two decimals. -/
def calculateLoads (totalTons truckCapacity : ℚ) : ℤ × List (Nat × ℚ) :=
  let totalLoads := Int.ceil (totalTons / truckCapacity)
  (totalLoads, loadsLoop truckCapacity totalLoads.toNat (round2 totalTons) 1)

/-- A non-cancelled delivery of the list books the truck at the given
date and time slot. This is the conflict notion the spec attributes to a
Slot Conflict Checker; no code under src computes it, and it is stated
here only as a predicate used to judge the assignment path. -/
def slotBooked (ds : List Delivery) (t date : String) (tw : Option String) : Bool :=
  ds.any (fun d => d.status ≠ "CANCELLED" ∧ d.truckId = some t ∧
                   d.deliveryDate = date ∧ d.timeWindow = tw)

/-! Concrete fixtures used by the theorems below. -/

/-- An en-route delivery of 3 tons of material P1. -/
def exDelivery : Delivery :=
  { productId := some "P1"
    quantity := 3
    deliveryDate := "2026-02-13"
    status := "EN_ROUTE"
    enRouteAt := true
    statusHistory := [⟨"EN_ROUTE", "driver", ""⟩] }

/-- A PUT body carrying only a DELIVERED status change. -/
def putDelivered : PutBody := { status := some "DELIVERED" }

/-- A delivery already in the terminal state DELIVERED. -/
def exDelivered : Delivery :=
  { status := "DELIVERED"
    deliveredAt := true
    statusHistory := [⟨"DELIVERED", "driver", ""⟩] }

/-- A SCHEDULED delivery on 2026-02-13 whose schedule SMS is unsent. -/
def exScheduled : Delivery :=
  { deliveryDate := "2026-02-13"
    status := "SCHEDULED"
    statusHistory := [⟨"SCHEDULED", "system", "Order created"⟩] }

/-- A delivery holding truck A at slot 10:00 AM - 12:00 PM on
2026-02-13. -/
def exBooked : Delivery :=
  { deliveryDate := "2026-02-13"
    timeWindow := some "10:00 AM - 12:00 PM"
    truckId := some "A"
    truckNumber := some "7"
    status := "SCHEDULED"
    statusHistory := [⟨"SCHEDULED", "system", ""⟩] }

/-- An unassigned delivery on 2026-02-13. -/
def exUnassigned : Delivery :=
  { deliveryDate := "2026-02-13"
    status := "UNASSIGNED"
    statusHistory := [⟨"UNASSIGNED", "system", "Order created"⟩] }

/-- A PUT body assigning truck A into the already-booked slot. -/
def putAssignA : PutBody :=
  { truckIdField := some (some "A")
    truckNumber := some "7"
    timeWindowField := some (some "10:00 AM - 12:00 PM") }

/-- A PUT body carrying only an EN_ROUTE status change. -/
def putEnRoute : PutBody := { status := some "EN_ROUTE" }

/-- The remaining-capacity fraction exactly as the claim words it:
availableTons over totalCapacityTons at full precision, taken as 0 for a
zero total. The code of capacity.js line 97 guards with a strictly
positive total instead; the classification theorems below show the two
agree. -/
def capRatio (ts : List Truck) (dels : List Delivery) : ℚ :=
  if fleetCapacity ts = 0 then 0
  else max 0 (fleetCapacity ts - scheduledTonsRaw dels) / fleetCapacity ts

/-- A roster holding one active truck whose number is ROCK 1. -/
def exRoster : List Truck := [{ truckNumber := "ROCK 1", capacity := 24 }]

/-- Three active trucks whose capacities are 24.25, 24 and 20 tons. -/
def exFleetQuarter : List Truck :=
  [{ truckNumber := "1", capacity := 97/4 }
   , { truckNumber := "2", capacity := 24 }
   , { truckNumber := "3", capacity := 20 }]

/-- Three active trucks whose capacities are 24, 24 and 20 tons. -/
def exFleet68 : List Truck :=
  [{ truckNumber := "1", capacity := 24 }
   , { truckNumber := "2", capacity := 24 }
   , { truckNumber := "3", capacity := 20 }]

/-- Deliveries of 2026-02-18: 30 and 32 tons live, plus a cancelled one
that the aggregation must ignore. -/
def exDels62 : List Delivery :=
  [{ quantity := 30, deliveryDate := "2026-02-18", status := "SCHEDULED"
     truckId := some "t1" }
   , { quantity := 32, deliveryDate := "2026-02-18", status := "EN_ROUTE"
       truckId := some "t2" }
   , { quantity := 9, deliveryDate := "2026-02-18", status := "CANCELLED"
       truckId := some "t3" }]

/-- A committer store holding deliveries a and c (no b). -/
def exStore : List (String × Delivery) :=
  [("a", { deliveryDate := "2026-02-18" }), ("c", { deliveryDate := "2026-02-18" })]

/-- Three assignment items, the second referencing the missing id b. -/
def exItems : List AssignmentItem :=
  [{ deliveryId := "a", truckId := "t1", truckNumber := "T1", stopOrder := 1 }
   , { deliveryId := "b", truckId := "t1", truckNumber := "T1", stopOrder := 2 }
   , { deliveryId := "c", truckId := "t2", truckNumber := "T2", stopOrder := 1 }]

/-! Small facts about the PUT stages, used to settle the claims about
the lifecycle engine. -/

theorem putTruckStage_keeps (b : PutBody) (d : Delivery) :
    (putTruckStage b d).productId = d.productId
    ∧ (putTruckStage b d).quantity = d.quantity
    ∧ (putTruckStage b d).statusHistory = d.statusHistory
    ∧ (putTruckStage b d).enRouteAt = d.enRouteAt := by
  rcases htf : b.truckIdField with _ | tid
  · simp [putTruckStage, htf]
  · rcases tid with _ | t
    · simp [putTruckStage, htf]
    · by_cases hs : b.status = some "UNASSIGNED" <;> simp [putTruckStage, htf, hs]

theorem putTruckStage_status_of_assign (b : PutBody) (d : Delivery) (t : String)
    (htf : b.truckIdField = some (some t)) (hs : b.status ≠ some "UNASSIGNED") :
    (putTruckStage b d).status = "SCHEDULED"
    ∧ (putTruckStage b d).truckId = some t := by
  simp [putTruckStage, htf, hs]

theorem putTruckStage_status_of_no_assign (b : PutBody) (d : Delivery)
    (h : b.truckIdField = none ∨ b.truckIdField = some none) :
    (putTruckStage b d).status = d.status := by
  rcases h with h | h <;> simp [putTruckStage, h]

theorem putTimeStage_keeps (b : PutBody) (d : Delivery) :
    (putTimeStage b d).productId = d.productId
    ∧ (putTimeStage b d).quantity = d.quantity
    ∧ (putTimeStage b d).statusHistory = d.statusHistory
    ∧ (putTimeStage b d).status = d.status
    ∧ (putTimeStage b d).enRouteAt = d.enRouteAt
    ∧ (putTimeStage b d).truckId = d.truckId := by
  rcases h : b.timeWindowField with _ | tw <;> simp [putTimeStage, h]

theorem putStopStage_keeps (b : PutBody) (d : Delivery) :
    (putStopStage b d).productId = d.productId
    ∧ (putStopStage b d).quantity = d.quantity
    ∧ (putStopStage b d).statusHistory = d.statusHistory
    ∧ (putStopStage b d).status = d.status
    ∧ (putStopStage b d).enRouteAt = d.enRouteAt
    ∧ (putStopStage b d).truckId = d.truckId := by
  rcases h : b.stopOrderField with _ | so <;> simp [putStopStage, h]

theorem putStatusStage_keeps (b : PutBody) (d : Delivery) :
    (putStatusStage b d).productId = d.productId
    ∧ (putStatusStage b d).quantity = d.quantity
    ∧ (putStatusStage b d).statusHistory = d.statusHistory
    ∧ (putStatusStage b d).truckId = d.truckId := by
  rcases hs : b.status with _ | s
  · simp [putStatusStage, hs]
  · simp only [putStatusStage, hs]
    split <;> split <;> split <;> simp

theorem putStatusStage_status (b : PutBody) (d : Delivery) :
    (putStatusStage b d).status = b.status.getD d.status := by
  rcases hs : b.status with _ | s
  · simp [putStatusStage, hs]
  · simp only [putStatusStage, hs]
    split <;> split <;> split <;> simp

theorem putStatusStage_enRouteAt (b : PutBody) (d : Delivery)
    (h : b.status = some "EN_ROUTE") :
    (putStatusStage b d).enRouteAt = true := by
  simp [putStatusStage, h]

theorem putStatusStage_keeps_of_none (b : PutBody) (d : Delivery)
    (h : b.status = none) : putStatusStage b d = d := by
  simp [putStatusStage, h]

theorem putSmsStage_keeps (b : PutBody) (d : Delivery) :
    (putSmsStage b d).productId = d.productId
    ∧ (putSmsStage b d).quantity = d.quantity
    ∧ (putSmsStage b d).statusHistory = d.statusHistory
    ∧ (putSmsStage b d).status = d.status
    ∧ (putSmsStage b d).enRouteAt = d.enRouteAt
    ∧ (putSmsStage b d).truckId = d.truckId := by
  by_cases h : b.enRouteSmsSent <;> simp [putSmsStage, h]

theorem putHistoryStage_keeps (b : PutBody) (d : Delivery) :
    (putHistoryStage b d).productId = d.productId
    ∧ (putHistoryStage b d).quantity = d.quantity
    ∧ (putHistoryStage b d).status = d.status
    ∧ (putHistoryStage b d).enRouteAt = d.enRouteAt
    ∧ (putHistoryStage b d).truckId = d.truckId := by
  rcases h : putHistoryStatus b with _ | hs <;> simp [putHistoryStage, h]

theorem putHistoryStage_history (b : PutBody) (d : Delivery) (hs : String)
    (h : putHistoryStatus b = some hs) :
    (putHistoryStage b d).statusHistory = d.statusHistory ++
      [⟨hs, b.updatedBy.getD "system", putHistoryNotes b⟩] := by
  simp [putHistoryStage, h]

theorem putHistoryStage_history_of_none (b : PutBody) (d : Delivery)
    (h : putHistoryStatus b = none) : putHistoryStage b d = d := by
  simp [putHistoryStage, h]

/-- The PUT never touches the material reference or the quantity of the
delivery. -/
theorem dispatchPut_keeps_material (b : PutBody) (d : Delivery) :
    (dispatchPut b d).productId = d.productId
    ∧ (dispatchPut b d).quantity = d.quantity := by
  unfold dispatchPut
  constructor
  · rw [(putHistoryStage_keeps _ _).1, (putSmsStage_keeps _ _).1,
      (putStatusStage_keeps _ _).1, (putStopStage_keeps _ _).1,
      (putTimeStage_keeps _ _).1, (putTruckStage_keeps _ _).1]
  · rw [(putHistoryStage_keeps _ _).2.1, (putSmsStage_keeps _ _).2.1,
      (putStatusStage_keeps _ _).2.1, (putStopStage_keeps _ _).2.1,
      (putTimeStage_keeps _ _).2.1, (putTruckStage_keeps _ _).2.1]

/-- The inventory side effect of a DELIVERED PUT, isolated: the handler
re-reads the delivery after the update and decrements the stock of its
material by its quantity. -/
theorem dispatchPutHandler_delivered (b : PutBody) (d : Delivery)
    (inv : List (String × ℚ)) (hb : b.status = some "DELIVERED")
    (pid : String) (hp : d.productId = some pid) :
    dispatchPutHandler b d inv = (dispatchPut b d, invDec pid d.quantity inv) := by
  simp only [dispatchPutHandler, hb]
  rw [(dispatchPut_keeps_material b d).1, hp, (dispatchPut_keeps_material b d).2]
  simp

/-- C1: the claim states that performing the DELIVERED transition twice
on the same material-referencing delivery decrements inventory by the
delivery quantity exactly once in total. The PUT handler has no
idempotence guard around its depletion step: starting from stock 10 and
a 3-ton delivery of material P1, the first DELIVERED request leaves
stock 7 and the second leaves stock 4 — the second attempt depletes
again, contradicting the claim and the spec requirement it quotes. -/
theorem C1_double_delivered_depletes_twice :
    (dispatchPutHandler putDelivered exDelivery [("P1", (10 : ℚ))]).2
      = [("P1", (7 : ℚ))]
    ∧ (dispatchPutHandler putDelivered
        (dispatchPutHandler putDelivered exDelivery [("P1", (10 : ℚ))]).1
        (dispatchPutHandler putDelivered exDelivery [("P1", (10 : ℚ))]).2).2
      = [("P1", (4 : ℚ))] := by
  have hkeep := dispatchPut_keeps_material putDelivered exDelivery
  have h1 : dispatchPutHandler putDelivered exDelivery [("P1", (10 : ℚ))]
      = (dispatchPut putDelivered exDelivery, [("P1", (7 : ℚ))]) := by
    rw [dispatchPutHandler_delivered putDelivered exDelivery _ rfl "P1" rfl]
    norm_num [invDec, exDelivery]
  have h2 : dispatchPutHandler putDelivered (dispatchPut putDelivered exDelivery)
        [("P1", (7 : ℚ))]
      = (dispatchPut putDelivered (dispatchPut putDelivered exDelivery),
         [("P1", (4 : ℚ))]) := by
    rw [dispatchPutHandler_delivered putDelivered _ _ rfl "P1" (by rw [hkeep.1]; rfl)]
    rw [hkeep.2]
    norm_num [invDec, exDelivery]
  rw [h1]
  exact ⟨rfl, by rw [h2]⟩

/-- C2 counterexample: the claim states that cancelling a delivery that
is already terminal appends no statusHistory entry beyond the first
terminal one and leaves the record otherwise unchanged. In fact every
DELETE appends a CANCELLED entry and rewrites the record: two cancels of
a DELIVERED delivery grow the history from one entry to three, and one
cancel already mutates the record. -/
theorem C2_cancel_terminal_not_noop :
    (dispatchCancel none none (dispatchCancel none none exDelivered)).statusHistory.length = 3
    ∧ exDelivered.statusHistory.length = 1
    ∧ (dispatchCancel none none exDelivered).status = "CANCELLED"
    ∧ dispatchCancel none none exDelivered ≠ exDelivered := by decide

/-- C2 amended: cancelling a CANCELLED or DELIVERED delivery reports
success both times (the handler has no failure path for it), but it is
not a no-op: every cancel sets status CANCELLED and cancelledAt and
appends one CANCELLED history entry, so two cancel calls append two
entries beyond the first terminal one. -/
theorem C2_amended_cancel_always_appends (d : Delivery) (a r : Option String)
    (h : d.status = "DELIVERED" ∨ d.status = "CANCELLED") :
    (dispatchCancel a r d).status = "CANCELLED"
    ∧ (dispatchCancel a r d).cancelledAt = true
    ∧ (dispatchCancel a r d).statusHistory
        = d.statusHistory ++ [⟨"CANCELLED", a.getD "admin", r.getD "Cancelled"⟩]
    ∧ (dispatchCancel a r (dispatchCancel a r d)).statusHistory.length
        = d.statusHistory.length + 2 := by
  simp [dispatchCancel]

/-- C2 amended, witnessed at the concrete DELIVERED fixture. -/
theorem C2_amended_cancel_always_appends_witness :
    (dispatchCancel none none exDelivered).status = "CANCELLED"
    ∧ (dispatchCancel none none exDelivered).cancelledAt = true
    ∧ (dispatchCancel none none exDelivered).statusHistory
        = exDelivered.statusHistory
          ++ [⟨"CANCELLED", Option.getD none "admin", Option.getD none "Cancelled"⟩]
    ∧ (dispatchCancel none none (dispatchCancel none none exDelivered)).statusHistory.length
        = exDelivered.statusHistory.length + 2 :=
  C2_amended_cancel_always_appends exDelivered none none (Or.inl (by decide))

/-- C3 counterexample: the claim states that after every operation,
batch finalize included, a delivery status equals the status of its most
recent history entry. Batch finalize pushes a FINALIZED entry without
changing the status field, so a finalized delivery has status SCHEDULED
under a last history entry FINALIZED. -/
theorem C3_finalize_breaks_invariant :
    statusInv exScheduled
    ∧ ¬ statusInv (finalizeOne "2026-02-13" none exScheduled)
    ∧ (finalizeOne "2026-02-13" none exScheduled).status = "SCHEDULED"
    ∧ (finalizeOne "2026-02-13" none exScheduled).statusHistory.getLast?.map
        (fun h => h.status) = some "FINALIZED" := by decide

theorem putHistoryStatus_of_status (b : PutBody) (s : String)
    (hbs : b.status = some s) : putHistoryStatus b = some s := by
  unfold putHistoryStatus; rw [hbs]

/-- Every single-delivery PUT preserves the history invariant: it pushes
a history entry exactly when it changes the status, and the entry
carries the new status. -/
theorem dispatchPut_statusInv (b : PutBody) (d : Delivery) (h : statusInv d) :
    statusInv (dispatchPut b d) := by
  unfold dispatchPut statusInv
  rcases hps : putHistoryStatus b with _ | hs
  · rw [putHistoryStage_history_of_none b _ hps]
    have hbs : b.status = none := by
      rcases hbs : b.status with _ | s
      · rfl
      · rw [putHistoryStatus_of_status b s hbs] at hps; exact absurd hps (by simp)
    have htf : b.truckIdField = none ∨ b.truckIdField = some none := by
      rcases htf : b.truckIdField with _ | tid
      · exact Or.inl rfl
      · rcases tid with _ | t
        · exact Or.inr rfl
        · exfalso; unfold putHistoryStatus at hps
          rw [hbs, htf] at hps; simp at hps
    rw [(putSmsStage_keeps _ _).2.2.1, (putSmsStage_keeps _ _).2.2.2.1,
        putStatusStage_keeps_of_none b _ hbs,
        (putStopStage_keeps _ _).2.2.1, (putStopStage_keeps _ _).2.2.2.1,
        (putTimeStage_keeps _ _).2.2.1, (putTimeStage_keeps _ _).2.2.2.1,
        (putTruckStage_keeps _ _).2.2.1,
        putTruckStage_status_of_no_assign b _ htf]
    exact h
  · rw [putHistoryStage_history b _ hs hps, (putHistoryStage_keeps _ _).2.2.1,
        List.getLast?_concat]
    simp only [Option.map_some']
    rw [(putSmsStage_keeps _ _).2.2.2.1]
    rcases hbs : b.status with _ | s
    · have htf : ∃ t, b.truckIdField = some (some t) := by
        rcases htf : b.truckIdField with _ | tid
        · exfalso; unfold putHistoryStatus at hps; rw [hbs, htf] at hps; simp at hps
        · rcases tid with _ | t
          · exfalso; unfold putHistoryStatus at hps; rw [hbs, htf] at hps; simp at hps
          · exact ⟨t, rfl⟩
      obtain ⟨t, htf⟩ := htf
      have hhs : hs = "SCHEDULED" := by
        unfold putHistoryStatus at hps; rw [hbs, htf] at hps
        simpa using hps.symm
      rw [putStatusStage_keeps_of_none b _ hbs,
          (putStopStage_keeps _ _).2.2.2.1, (putTimeStage_keeps _ _).2.2.2.1,
          (putTruckStage_status_of_assign b _ t htf (by rw [hbs]; simp)).1, hhs]
    · have hhs : hs = s := by
        rw [putHistoryStatus_of_status b s hbs] at hps
        exact (Option.some_inj.1 hps).symm
      rw [putStatusStage_status, hbs, hhs]
      simp

/-- C3 amended: the invariant that a delivery status equals the status
of its most recent history entry is established by create and preserved
by every single-delivery PUT, by cancel and by the notification en-route
write; batch finalize is the exception — it appends a FINALIZED history
entry to a matching SCHEDULED delivery while leaving the status field
SCHEDULED, so the invariant fails for finalized deliveries. -/
theorem C3_amended_status_matches_history (b : CreateBody) (p : PutBody)
    (a r di u : Option String) (sOk eOk : Bool) (dt : String) (d e : Delivery)
    (h : statusInv d) (he1 : e.deliveryDate = dt) (he2 : e.status = "SCHEDULED")
    (he3 : e.scheduleSmsSent = false) :
    statusInv (createDelivery b)
    ∧ statusInv (dispatchPut p d)
    ∧ statusInv (dispatchCancel a r d)
    ∧ statusInv (notifyEnRoute di sOk eOk d)
    ∧ (finalizeOne dt u e).status = "SCHEDULED"
    ∧ (finalizeOne dt u e).statusHistory.getLast?.map (fun x => x.status)
        = some "FINALIZED" := by
  refine ⟨?_, dispatchPut_statusInv p d h, ?_, ?_, ?_, ?_⟩
  · simp [createDelivery, statusInv]
  · simp [dispatchCancel, statusInv, List.getLast?_concat]
  · simp [notifyEnRoute, statusInv, List.getLast?_concat]
  · simp [finalizeOne, he1, he2, he3]
  · simp [finalizeOne, he1, he2, he3, List.getLast?_concat]

/-- C3 amended, witnessed at concrete inputs. -/
theorem C3_amended_status_matches_history_witness :
    statusInv (createDelivery {})
    ∧ statusInv (dispatchPut {} exScheduled)
    ∧ statusInv (dispatchCancel none none exScheduled)
    ∧ statusInv (notifyEnRoute none false false exScheduled)
    ∧ (finalizeOne "2026-02-13" none exScheduled).status = "SCHEDULED"
    ∧ (finalizeOne "2026-02-13" none exScheduled).statusHistory.getLast?.map
        (fun x => x.status) = some "FINALIZED" :=
  C3_amended_status_matches_history {} {} none none none none false false
    "2026-02-13" exScheduled exScheduled (by decide) rfl rfl rfl

/-- C4 counterexample: the claim states that a second truck assignment
into an occupied (truck, date, slot) fails with a SlotConflict error and
leaves the target unchanged. The PUT path performs no conflict check at
all: with truck A already booked at the slot by one non-cancelled
delivery, assigning a second delivery to the identical triple succeeds,
mutates the target, and leaves two non-cancelled deliveries booked on
the same slot. -/
theorem C4_no_slot_conflict_rejection :
    slotBooked [exBooked] "A" "2026-02-13" (some "10:00 AM - 12:00 PM") = true
    ∧ (dispatchPut putAssignA exUnassigned).truckId = some "A"
    ∧ (dispatchPut putAssignA exUnassigned).status = "SCHEDULED"
    ∧ dispatchPut putAssignA exUnassigned ≠ exUnassigned
    ∧ slotBooked [exBooked, dispatchPut putAssignA exUnassigned] "A" "2026-02-13"
        (some "10:00 AM - 12:00 PM") = true := by decide

/-- C4 amended: the truck-assignment path consults no conflict state:
whatever deliveries already book the truck at the date and slot, a PUT
carrying a truthy truckId applies the assignment, sets status SCHEDULED
and appends the assignment history entry. A request for a different slot
equally succeeds; nothing named SlotConflict exists in the source. -/
theorem C4_amended_assignment_ignores_conflicts
    (ds : List Delivery) (t date : String) (tw : Option String)
    (d : Delivery) (b : PutBody)
    (hconf : slotBooked ds t date tw = true)
    (hb : b.truckIdField = some (some t))
    (hs : b.status = none) :
    (dispatchPut b d).truckId = some t
    ∧ (dispatchPut b d).status = "SCHEDULED"
    ∧ (dispatchPut b d).statusHistory
        = d.statusHistory ++ [⟨"SCHEDULED", b.updatedBy.getD "system",
            "Assigned to truck " ++ (b.truckNumber.getD t)⟩] := by
  have hps : putHistoryStatus b = some "SCHEDULED" := by
    unfold putHistoryStatus; rw [hs, hb]
  have hns : putHistoryNotes b = "Assigned to truck " ++ (b.truckNumber.getD t) := by
    unfold putHistoryNotes; rw [hs, hb]
  have hne : b.status ≠ some "UNASSIGNED" := by rw [hs]; simp
  refine ⟨?_, ?_, ?_⟩
  · unfold dispatchPut
    rw [(putHistoryStage_keeps _ _).2.2.2.2, (putSmsStage_keeps _ _).2.2.2.2.2,
        putStatusStage_keeps_of_none b _ hs,
        (putStopStage_keeps _ _).2.2.2.2.2, (putTimeStage_keeps _ _).2.2.2.2.2,
        (putTruckStage_status_of_assign b d t hb hne).2]
  · unfold dispatchPut
    rw [(putHistoryStage_keeps _ _).2.2.1, (putSmsStage_keeps _ _).2.2.2.1,
        putStatusStage_keeps_of_none b _ hs,
        (putStopStage_keeps _ _).2.2.2.1, (putTimeStage_keeps _ _).2.2.2.1,
        (putTruckStage_status_of_assign b d t hb hne).1]
  · unfold dispatchPut
    rw [putHistoryStage_history b _ _ hps, hns,
        (putSmsStage_keeps _ _).2.2.1, putStatusStage_keeps_of_none b _ hs,
        (putStopStage_keeps _ _).2.2.1, (putTimeStage_keeps _ _).2.2.1,
        (putTruckStage_keeps _ _).2.2.1]

/-- C4 amended, witnessed at the concrete occupied-slot fixture. -/
theorem C4_amended_assignment_ignores_conflicts_witness :
    (dispatchPut putAssignA exUnassigned).truckId = some "A"
    ∧ (dispatchPut putAssignA exUnassigned).status = "SCHEDULED"
    ∧ (dispatchPut putAssignA exUnassigned).statusHistory
        = exUnassigned.statusHistory ++ [⟨"SCHEDULED",
            (putAssignA.updatedBy).getD "system",
            "Assigned to truck " ++ ((putAssignA.truckNumber).getD "A")⟩] :=
  C4_amended_assignment_ignores_conflicts [exBooked] "A" "2026-02-13"
    (some "10:00 AM - 12:00 PM") exUnassigned putAssignA (by decide) rfl rfl

/-- C5 counterexample: the claim states that marking an UNASSIGNED
delivery en route fails with InvalidTransition and sets neither
enRouteAt nor the status. Both en-route paths — a PUT with status
EN_ROUTE and the notification handler branch — apply the transition to
the UNASSIGNED fixture, setting status EN_ROUTE and enRouteAt. -/
theorem C5_enroute_from_unassigned_succeeds :
    exUnassigned.status = "UNASSIGNED"
    ∧ (dispatchPut putEnRoute exUnassigned).status = "EN_ROUTE"
    ∧ (dispatchPut putEnRoute exUnassigned).enRouteAt = true
    ∧ (notifyEnRoute none false false exUnassigned).status = "EN_ROUTE"
    ∧ (notifyEnRoute none false false exUnassigned).enRouteAt = true := by decide

/-- C5 amended: the en-route transition is applied from any current
status. A PUT whose body carries status EN_ROUTE — and likewise the
notification handler branch — sets status EN_ROUTE and enRouteAt with no
validation of the current status; no InvalidTransition error exists in
the source. -/
theorem C5_amended_enroute_any_status (d : Delivery) (b : PutBody)
    (di : Option String) (sOk eOk : Bool) (hb : b.status = some "EN_ROUTE") :
    (dispatchPut b d).status = "EN_ROUTE"
    ∧ (dispatchPut b d).enRouteAt = true
    ∧ (notifyEnRoute di sOk eOk d).status = "EN_ROUTE"
    ∧ (notifyEnRoute di sOk eOk d).enRouteAt = true := by
  refine ⟨?_, ?_, by simp [notifyEnRoute], by simp [notifyEnRoute]⟩
  · unfold dispatchPut
    rw [(putHistoryStage_keeps _ _).2.2.1, (putSmsStage_keeps _ _).2.2.2.1,
        putStatusStage_status, hb]
    rfl
  · unfold dispatchPut
    rw [(putHistoryStage_keeps _ _).2.2.2.1, (putSmsStage_keeps _ _).2.2.2.2.1,
        putStatusStage_enRouteAt _ _ hb]

/-- C5 amended, witnessed at the UNASSIGNED fixture. -/
theorem C5_amended_enroute_any_status_witness :
    (dispatchPut putEnRoute exUnassigned).status = "EN_ROUTE"
    ∧ (dispatchPut putEnRoute exUnassigned).enRouteAt = true
    ∧ (notifyEnRoute (some "drv1") true true exUnassigned).status = "EN_ROUTE"
    ∧ (notifyEnRoute (some "drv1") true true exUnassigned).enRouteAt = true :=
  C5_amended_enroute_any_status exUnassigned putEnRoute (some "drv1") true true rfl

/-- C6 counterexample: the claim states that registering a truck whose
number matches an existing active truck up to case and whitespace fails.
With ROCK 1 active in the roster, both exact-match duplicate checks miss
the case-variant rock 1 and the trucks.js registration inserts it,
although the case-insensitive check of the other handler would have
caught it. -/
theorem C6_case_duplicate_accepted :
    lowerStr (trimStr "rock 1") = lowerStr (trimStr "ROCK 1")
    ∧ dupCheckExactActive exRoster "rock 1" = false
    ∧ dupCheckExact exRoster "rock 1" = false
    ∧ (registerTruckV1 exRoster "rock 1" 24).isOk = true
    ∧ dupCheckCaseInsensitive exRoster "rock 1" = true := by
  refine ⟨by decide, by decide, by decide, ?_, by decide⟩
  unfold registerTruckV1
  rw [if_neg (not_or.2 ⟨by decide, by norm_num⟩), if_neg (by decide)]
  rfl

/-- C6 amended: only the case-insensitive trucks handler enforces the
trimmed case-insensitive uniqueness of active truck numbers: whenever
some active truck matches the proposed number up to trim and case, its
registration refuses to insert; the other two coexisting handlers
compare the number verbatim (one of them ignoring the active flag), so
a case-variant duplicate registers through them. -/
theorem C6_amended_only_caseless_handler_rejects (roster : List Truck)
    (num : String) (cap : ℚ) (t : Truck) (hmem : t ∈ roster)
    (hact : t.active = true) (hdup : lowerStr t.truckNumber = lowerStr (trimStr num)) :
    dupCheckCaseInsensitive roster num = true
    ∧ ∃ msg, registerTruckV3 roster num cap = .error msg := by
  have hck : dupCheckCaseInsensitive roster num = true := by
    unfold dupCheckCaseInsensitive
    rw [List.any_eq_true]
    exact ⟨t, hmem, by simp [hact, hdup]⟩
  refine ⟨hck, ?_⟩
  unfold registerTruckV3
  by_cases h0 : num = "" ∨ cap = 0
  · rw [if_pos h0]; exact ⟨_, rfl⟩
  · rw [if_neg h0, hck]; exact ⟨_, rfl⟩

/-- C6 amended, witnessed against the ROCK 1 roster. -/
theorem C6_amended_only_caseless_handler_rejects_witness :
    dupCheckCaseInsensitive exRoster " Rock 1 " = true
    ∧ ∃ msg, registerTruckV3 exRoster " Rock 1 " 24 = .error msg :=
  C6_amended_only_caseless_handler_rejects exRoster " Rock 1 " 24
    { truckNumber := "ROCK 1", capacity := 24 } (by decide) rfl (by decide)

/-! Rounding bounds for the capacity output. -/

theorem round1_le (x : ℚ) : round1 x ≤ x + 1/20 := by
  unfold round1 jsRound
  have h := Int.floor_le (x * 10 + 1/2)
  have h10 : (0:ℚ) < 10 := by norm_num
  rw [div_le_iff₀ h10]
  linarith

theorem lt_round1 (x : ℚ) : x - 1/20 < round1 x := by
  unfold round1 jsRound
  have h := Int.sub_one_lt_floor (x * 10 + 1/2)
  have h10 : (0:ℚ) < 10 := by norm_num
  rw [lt_div_iff₀ h10]
  linarith

theorem computeDay_fields (ts : List Truck) (dels : List Delivery) :
    (computeDay ts dels).totalCapacityTons = fleetCapacity ts
    ∧ (computeDay ts dels).scheduledTons = round1 (scheduledTonsRaw dels)
    ∧ (computeDay ts dels).availableTons
        = round1 (max 0 (fleetCapacity ts - scheduledTonsRaw dels))
    ∧ (computeDay ts dels).status
        = capacityStatus (if fleetCapacity ts > 0
            then max 0 (fleetCapacity ts - scheduledTonsRaw dels) / fleetCapacity ts
            else 0) :=
  ⟨rfl, rfl, rfl, rfl⟩

/-- C7 counterexample: the claim states the emitted DayCapacity values
satisfy availableTons + scheduledTons = totalCapacityTons whenever
scheduled tonnage does not exceed capacity. With an active fleet of
24.25 + 24 + 20 tons and no deliveries, the emitted availableTons is
rounded up to 68.3 while totalCapacityTons is emitted at full precision
68.25, so the sum misses the total by a tenth of a ton. -/
theorem C7_rounding_breaks_capacity_law :
    scheduledTonsRaw [] ≤ fleetCapacity exFleetQuarter
    ∧ (computeDay exFleetQuarter []).scheduledTons = 0
    ∧ (computeDay exFleetQuarter []).totalCapacityTons = 273/4
    ∧ (computeDay exFleetQuarter []).availableTons = 683/10
    ∧ (computeDay exFleetQuarter []).availableTons
        + (computeDay exFleetQuarter []).scheduledTons
        ≠ (computeDay exFleetQuarter []).totalCapacityTons := by
  obtain ⟨h1, h2, h3, -⟩ := computeDay_fields exFleetQuarter []
  have hcap : fleetCapacity exFleetQuarter = 273/4 := by
    norm_num [fleetCapacity, activeTrucks, exFleetQuarter]
  have hsch : scheduledTonsRaw ([] : List Delivery) = 0 := rfl
  have hr0 : round1 0 = 0 := by
    unfold round1 jsRound
    norm_num
  have hr : round1 (max 0 (273/4 - 0)) = 683/10 := by
    unfold round1 jsRound
    norm_num
  rw [h1, h2, h3, hcap, hsch, hr0, hr]
  norm_num

/-- C7 amended: the capacity law holds exactly at full precision — for
every operating day the unclamped available tonnage plus the scheduled
tonnage equals the emitted totalCapacityTons when scheduled tonnage does
not exceed it, and is at least the total otherwise — while the emitted
one-decimal availableTons and scheduledTons satisfy it only up to the
output rounding: their sum lies within 0.1 of totalCapacityTons when
scheduled tonnage fits, and in general falls below it by at most 0.1. -/
theorem C7_amended_capacity_law (ts : List Truck) (dels : List Delivery) :
    (scheduledTonsRaw dels ≤ fleetCapacity ts →
      max 0 (fleetCapacity ts - scheduledTonsRaw dels) + scheduledTonsRaw dels
        = (computeDay ts dels).totalCapacityTons
      ∧ |(computeDay ts dels).availableTons + (computeDay ts dels).scheduledTons
          - (computeDay ts dels).totalCapacityTons| ≤ 1/10)
    ∧ max 0 (fleetCapacity ts - scheduledTonsRaw dels) + scheduledTonsRaw dels
        ≥ (computeDay ts dels).totalCapacityTons
    ∧ (computeDay ts dels).availableTons + (computeDay ts dels).scheduledTons
        ≥ (computeDay ts dels).totalCapacityTons - 1/10 := by
  obtain ⟨h1, h2, h3, -⟩ := computeDay_fields ts dels
  set t := fleetCapacity ts
  set s := scheduledTonsRaw dels
  set a := max 0 (t - s) with ha
  have haa : t - s ≤ a := le_max_right _ _
  have ha0 : 0 ≤ a := le_max_left _ _
  refine ⟨?_, ?_, ?_⟩
  · intro hle
    have heq : a = t - s := by rw [ha]; exact max_eq_right (by linarith)
    constructor
    · rw [h1, heq]; ring
    · rw [h1, h2, h3]
      have b1 := round1_le a
      have b2 := lt_round1 a
      have b3 := round1_le s
      have b4 := lt_round1 s
      rw [abs_le]
      constructor <;> [linarith [heq]; linarith [heq]]
  · rw [h1]; linarith
  · rw [h1, h2, h3]
    have b2 := lt_round1 a
    have b4 := lt_round1 s
    linarith

/-- C7 amended, witnessed at the 68-ton fleet with 62 scheduled tons. -/
theorem C7_amended_capacity_law_witness :
    (max 0 (fleetCapacity exFleet68
        - scheduledTonsRaw (delsForDay exDels62 "2026-02-18"))
      + scheduledTonsRaw (delsForDay exDels62 "2026-02-18")
      = (computeDay exFleet68 (delsForDay exDels62 "2026-02-18")).totalCapacityTons)
    ∧ |(computeDay exFleet68 (delsForDay exDels62 "2026-02-18")).availableTons
        + (computeDay exFleet68 (delsForDay exDels62 "2026-02-18")).scheduledTons
        - (computeDay exFleet68 (delsForDay exDels62 "2026-02-18")).totalCapacityTons|
        ≤ 1/10
    ∧ max 0 (fleetCapacity exFleet68
        - scheduledTonsRaw (delsForDay exDels62 "2026-02-18"))
      + scheduledTonsRaw (delsForDay exDels62 "2026-02-18")
      ≥ (computeDay exFleet68 (delsForDay exDels62 "2026-02-18")).totalCapacityTons
    ∧ (computeDay exFleet68 (delsForDay exDels62 "2026-02-18")).availableTons
        + (computeDay exFleet68 (delsForDay exDels62 "2026-02-18")).scheduledTons
        ≥ (computeDay exFleet68 (delsForDay exDels62 "2026-02-18")).totalCapacityTons
          - 1/10 := by
  obtain ⟨himp, hge, hround⟩ :=
    C7_amended_capacity_law exFleet68 (delsForDay exDels62 "2026-02-18")
  have hfil : delsForDay exDels62 "2026-02-18"
      = [{ quantity := 30, deliveryDate := "2026-02-18", status := "SCHEDULED"
           truckId := some "t1" }
         , { quantity := 32, deliveryDate := "2026-02-18", status := "EN_ROUTE"
             truckId := some "t2" }] := by decide
  have hle : scheduledTonsRaw (delsForDay exDels62 "2026-02-18")
      ≤ fleetCapacity exFleet68 := by
    rw [hfil]
    norm_num [scheduledTonsRaw, fleetCapacity, activeTrucks, exFleet68]
  obtain ⟨he1, he2⟩ := himp hle
  exact ⟨he1, he2, hge, hround⟩

theorem capacityStatus_iff (r : ℚ) :
    (capacityStatus r = "available" ↔ r > 3/10)
    ∧ (capacityStatus r = "limited" ↔ (1/10 < r ∧ r ≤ 3/10))
    ∧ (capacityStatus r = "full" ↔ r ≤ 1/10) := by
  unfold capacityStatus
  by_cases h1 : r > 3/10
  · rw [if_pos h1]
    exact ⟨iff_of_true rfl h1,
      iff_of_false (by decide) (fun hc => absurd hc.2 (not_le.2 h1)),
      iff_of_false (by decide) (not_le.2 (lt_trans (by norm_num) h1))⟩
  · rw [if_neg h1]
    by_cases h2 : r > 1/10
    · rw [if_pos h2]
      exact ⟨iff_of_false (by decide) h1,
        iff_of_true rfl ⟨h2, not_lt.1 h1⟩,
        iff_of_false (by decide) (not_le.2 h2)⟩
    · rw [if_neg h2]
      exact ⟨iff_of_false (by decide) h1,
        iff_of_false (by decide) (fun hc => h2 hc.1),
        iff_of_true rfl (not_lt.1 h2)⟩

/-- C8: the day status classification is exactly the claimed threshold
scheme on the remaining-capacity fraction r (available above 3/10,
limited above 1/10 up to 3/10, full otherwise, with r taken as 0 for a
zero fleet capacity); and on the concrete 24 + 24 + 20 fleet with live
deliveries summing 62 tons (a cancelled one ignored), the emitted
availableTons is 6 and the status is full. -/
theorem C8_status_classification (ts : List Truck) (dels : List Delivery) :
    (((computeDay ts dels).status = "available" ↔ capRatio ts dels > 3/10)
     ∧ ((computeDay ts dels).status = "limited"
        ↔ (1/10 < capRatio ts dels ∧ capRatio ts dels ≤ 3/10))
     ∧ ((computeDay ts dels).status = "full" ↔ capRatio ts dels ≤ 1/10))
    ∧ (computeDay exFleet68 (delsForDay exDels62 "2026-02-18")).totalCapacityTons = 68
    ∧ (computeDay exFleet68 (delsForDay exDels62 "2026-02-18")).availableTons = 6
    ∧ (computeDay exFleet68 (delsForDay exDels62 "2026-02-18")).status = "full" := by
  constructor
  · obtain ⟨-, -, -, h4⟩ := computeDay_fields ts dels
    set t := fleetCapacity ts
    set s := scheduledTonsRaw dels
    set a := max 0 (t - s) with ha
    have ha0 : (0:ℚ) ≤ a := le_max_left _ _
    rcases lt_trichotomy t 0 with ht | ht | ht
    · have hpct : (if t > 0 then a / t else 0) = 0 := if_neg (by linarith)
      have hr : capRatio ts dels = a / t := if_neg (by linarith)
      have hrle : a / t ≤ 0 := div_nonpos_iff.2 (Or.inl ⟨ha0, le_of_lt ht⟩)
      rw [h4, hpct, hr]
      obtain ⟨i1, i2, i3⟩ := capacityStatus_iff 0
      exact ⟨iff_of_false (fun hc => absurd (i1.1 hc) (by norm_num))
               (fun hc => absurd hc (not_lt.2 (by linarith))),
             iff_of_false (fun hc => absurd (i2.1 hc).1 (by norm_num))
               (fun hc => absurd hc.1 (not_lt.2 (by linarith))),
             iff_of_true (i3.2 (by norm_num)) (by linarith)⟩
    · have hpct : (if t > 0 then a / t else 0) = 0 := if_neg (by linarith)
      have hr : capRatio ts dels = 0 := if_pos ht
      rw [h4, hpct, hr]
      exact capacityStatus_iff 0
    · have hpct : (if t > 0 then a / t else 0) = a / t := if_pos ht
      have hr : capRatio ts dels = a / t := if_neg (by linarith)
      rw [h4, hpct, hr]
      exact capacityStatus_iff (a / t)
  · obtain ⟨h1, h2, h3, h4⟩ := computeDay_fields exFleet68 (delsForDay exDels62 "2026-02-18")
    have hcap : fleetCapacity exFleet68 = 68 := by
      norm_num [fleetCapacity, activeTrucks, exFleet68]
    have hfil : delsForDay exDels62 "2026-02-18"
        = [{ quantity := 30, deliveryDate := "2026-02-18", status := "SCHEDULED"
             truckId := some "t1" }
           , { quantity := 32, deliveryDate := "2026-02-18", status := "EN_ROUTE"
               truckId := some "t2" }] := by decide
    have hsch : scheduledTonsRaw (delsForDay exDels62 "2026-02-18") = 62 := by
      rw [hfil]
      simp [scheduledTonsRaw]
      norm_num
    have hav : round1 (max 0 ((68:ℚ) - 62)) = 6 := by
      unfold round1 jsRound
      norm_num
    refine ⟨by rw [h1, hcap], by rw [h3, hcap, hsch, hav], ?_⟩
    rw [h4, hcap, hsch]
    norm_num
    unfold capacityStatus
    norm_num

theorem applyStep_counts (L : List (Nat × AssignmentItem)) :
    ∀ (st : List (String × Delivery)) (n : Nat) (es : List (Nat × String)),
      (L.foldl applyStep (st, n, es)).2.1 + (L.foldl applyStep (st, n, es)).2.2.length
        = n + es.length + L.length := by
  induction L with
  | nil => intro st n es; simp
  | cons hd tl ih =>
    intro st n es
    rw [List.foldl_cons]
    rcases happ : applyItem hd.2 st with _ | st2
    · have hstep : applyStep (st, n, es) hd = (st, n, es ++ [(hd.1, hd.2.deliveryId)]) := by
        unfold applyStep; rw [happ]
      rw [hstep, ih]
      simp only [List.length_append, List.length_cons, List.length_nil]
      omega
    · have hstep : applyStep (st, n, es) hd = (st2, n + 1, es) := by
        unfold applyStep; rw [happ]
      rw [hstep, ih]
      simp only [List.length_cons]
      omega

/-- C9: per-item failure isolation of the committer batch (modelled from
the spec, the committer write path being absent from src): every item
either bumps appliedCount or contributes one perItemErrors entry, so the
two always sum to totalCount and no failure aborts the batch; on the
concrete 3-item batch whose second item references the missing id b, the
result is appliedCount 2, totalCount 3, a single error entry for item 2,
and the third item has still been applied (delivery c is SCHEDULED). -/
theorem C9_per_item_isolation (store : List (String × Delivery))
    (items : List AssignmentItem) :
    ((applyAssignments store items).2.totalCount = items.length
     ∧ (applyAssignments store items).2.appliedCount
        + (applyAssignments store items).2.perItemErrors.length = items.length)
    ∧ (applyAssignments exStore exItems).2.appliedCount = 2
    ∧ (applyAssignments exStore exItems).2.totalCount = 3
    ∧ (applyAssignments exStore exItems).2.perItemErrors = [(2, "b")]
    ∧ ((applyAssignments exStore exItems).1.lookup "c").map (fun d => d.status)
        = some "SCHEDULED" := by
  refine ⟨⟨rfl, ?_⟩, by decide, rfl, by decide, by decide⟩
  unfold applyAssignments
  have h := applyStep_counts (items.enum.map (fun p => (p.1 + 1, p.2))) store 0 []
  simpa using h

/-! Integer-cents arithmetic for the load breakdown. -/

theorem round2_div_hundred (m : ℤ) : round2 ((m:ℚ)/100) = (m:ℚ)/100 := by
  unfold round2 jsRound
  have h : (m:ℚ)/100 * 100 + 1/2 = (m:ℚ) + 1/2 := by field_simp
  rw [h, Int.floor_int_add]
  norm_num

theorem loadsLoop_zero (cap r : ℚ) (i : Nat) : loadsLoop cap 0 r i = [] := rfl

theorem loadsLoop_succ (cap r : ℚ) (n i : Nat) :
    loadsLoop cap (n + 1) r i
      = (i, round2 (min r cap))
        :: loadsLoop cap n (round2 (r - round2 (min r cap))) (i + 1) := rfl

theorem loadsLoop_length (cap : ℚ) :
    ∀ (n : Nat) (r : ℚ) (i : Nat), (loadsLoop cap n r i).length = n := by
  intro n
  induction n with
  | zero => intro r i; rfl
  | succ k ih => intro r i; rw [loadsLoop_succ]; simp [ih]

/-- The loop invariant of the load breakdown, over whole numbers of
hundredths of a ton: starting `k` iterations with `m` cents remaining
and a capacity of `p` cents, where `(k-1) p ≤ m ≤ k p`, the loads are
numbered from `i`, each is at most the capacity, all but the last equal
the capacity, and they sum to the starting remainder. -/
theorem loadsLoop_cents (p : ℤ) (hp : 0 < p) :
    ∀ (k : Nat) (m : ℤ) (i : Nat),
      ((k:ℤ) - 1) * p ≤ m → m ≤ (k:ℤ) * p → 0 ≤ m →
      (loadsLoop ((p:ℚ)/100) k ((m:ℚ)/100) i).map Prod.fst = List.range' i k
      ∧ (∀ q ∈ loadsLoop ((p:ℚ)/100) k ((m:ℚ)/100) i, q.2 ≤ (p:ℚ)/100)
      ∧ (∀ q ∈ (loadsLoop ((p:ℚ)/100) k ((m:ℚ)/100) i).dropLast, q.2 = (p:ℚ)/100)
      ∧ ((loadsLoop ((p:ℚ)/100) k ((m:ℚ)/100) i).map Prod.snd).sum = (m:ℚ)/100 := by
  intro k
  induction k with
  | zero =>
    intro m i h1 h2 h0
    have hm : m = 0 := le_antisymm (by simpa using h2) h0
    subst hm
    simp [loadsLoop_zero]
  | succ k ih =>
    intro m i h1 h2 h0
    have h1k : (k:ℤ) * p ≤ m := by
      have h := h1
      push_cast at h
      linarith
    have h2k : m ≤ ((k:ℤ) + 1) * p := by
      have h := h2
      push_cast at h
      linarith
    rw [loadsLoop_succ]
    rcases Nat.eq_zero_or_pos k with hk | hk
    · subst hk
      have hmp : m ≤ p := by simpa using h2k
      have hmin : min ((m:ℚ)/100) ((p:ℚ)/100) = (m:ℚ)/100 := by
        apply min_eq_left
        apply div_le_div_of_nonneg_right ?_ (by norm_num)
        exact_mod_cast hmp
      rw [hmin, round2_div_hundred]
      have hsub : (m:ℚ)/100 - (m:ℚ)/100 = ((0:ℤ):ℚ)/100 := by norm_num
      rw [hsub, round2_div_hundred, loadsLoop_zero]
      refine ⟨by simp [List.range'], ?_, by simp, by simp⟩
      intro q hq
      simp only [List.mem_singleton] at hq
      subst hq
      apply div_le_div_of_nonneg_right ?_ (by norm_num)
      exact_mod_cast hmp
    · have hpk : p ≤ (k:ℤ) * p := le_mul_of_one_le_left (le_of_lt hp) (by exact_mod_cast hk)
      have hpm : p ≤ m := le_trans hpk h1k
      have hmin : min ((m:ℚ)/100) ((p:ℚ)/100) = (p:ℚ)/100 := by
        apply min_eq_right
        apply div_le_div_of_nonneg_right ?_ (by norm_num)
        exact_mod_cast hpm
      rw [hmin, round2_div_hundred]
      have hsub : (m:ℚ)/100 - (p:ℚ)/100 = ((m - p : ℤ):ℚ)/100 := by push_cast; ring
      rw [hsub, round2_div_hundred]
      obtain ⟨ih1, ih2, ih3, ih4⟩ := ih (m - p) (i + 1)
        (by linarith) (by linarith) (by linarith)
      have hne : loadsLoop ((p:ℚ)/100) k (((m - p : ℤ):ℚ)/100) (i+1) ≠ [] := by
        intro hcon
        have hlen := loadsLoop_length ((p:ℚ)/100) k (((m - p : ℤ):ℚ)/100) (i+1)
        rw [hcon] at hlen
        simp at hlen
        omega
      refine ⟨?_, ?_, ?_, ?_⟩
      · rw [List.map_cons, ih1, List.range'_succ]
      · intro q hq
        rcases List.mem_cons.1 hq with hq | hq
        · subst hq; exact le_refl _
        · exact ih2 q hq
      · rw [List.dropLast_cons_of_ne_nil hne]
        intro q hq
        rcases List.mem_cons.1 hq with hq | hq
        · subst hq; rfl
        · exact ih3 q hq
      · rw [List.map_cons, List.sum_cons, ih4]
        push_cast
        ring

/-- C10 counterexample: the claim states every load quantity is at most
truckCapacity (and all but the last equal it). With 0.2 total tons and a
0.125-ton capacity, the first load is the capacity rounded to two
decimals — 0.13 tons — which exceeds the capacity. -/
theorem C10_load_exceeds_capacity :
    (0:ℚ) < 1/5 ∧ (0:ℚ) < 1/8
    ∧ calculateLoads (1/5) (1/8) = (2, [(1, 13/100), (2, 7/100)])
    ∧ ¬ ((13:ℚ)/100 ≤ 1/8) := by
  refine ⟨by norm_num, by norm_num, ?_, by norm_num⟩
  unfold calculateLoads
  have hceil : Int.ceil ((1:ℚ)/5 / (1/8)) = 2 := by
    rw [Int.ceil_eq_iff]
    norm_num
  rw [hceil]
  have hr1 : round2 ((1:ℚ)/5) = 1/5 := by unfold round2 jsRound; norm_num
  have hmin1 : min ((1:ℚ)/5) (1/8) = 1/8 := by norm_num
  have hr2 : round2 ((1:ℚ)/8) = 13/100 := by unfold round2 jsRound; norm_num
  have hsub : round2 ((1:ℚ)/5 - 13/100) = 7/100 := by unfold round2 jsRound; norm_num
  have hmin2 : min ((7:ℚ)/100) (1/8) = 7/100 := by norm_num
  have hr3 : round2 ((7:ℚ)/100) = 7/100 := by unfold round2 jsRound; norm_num
  show ((2:ℤ), loadsLoop (1/8) (Int.toNat 2) (round2 (1/5)) 1) = _
  rw [hr1]
  rw [show Int.toNat 2 = 2 from rfl]
  rw [show (2:ℕ) = 1 + 1 from rfl, loadsLoop_succ, hmin1, hr2, hsub]
  rw [loadsLoop_succ, hmin2, hr3]
  norm_num [loadsLoop_zero]

/-- C10 amended: for positive totalTons and a positive truckCapacity
that is a whole number of hundredths of a ton (so that the two-decimal
rounding leaves it fixed), calculateLoads returns ceil(totalTons over
truckCapacity) as the load count, loads numbered 1..totalLoads in order,
every load at most the capacity, every load but possibly the last equal
to the capacity, and quantities summing to totalTons rounded to two
decimals. For capacities off the hundredth grid the counterexample
theorem shows the bound fails. -/
theorem C10_amended_loads (T c : ℚ) (hT : 0 < T) (hc : 0 < c)
    (hcent : round2 c = c) :
    (calculateLoads T c).1 = Int.ceil (T / c)
    ∧ (calculateLoads T c).2.map Prod.fst = List.range' 1 (Int.ceil (T / c)).toNat
    ∧ (∀ q ∈ (calculateLoads T c).2, q.2 ≤ c)
    ∧ (∀ q ∈ (calculateLoads T c).2.dropLast, q.2 = c)
    ∧ ((calculateLoads T c).2.map Prod.snd).sum = round2 T := by
  have hcp : c = ((jsRound (c * 100) : ℤ):ℚ)/100 := hcent.symm
  set p : ℤ := jsRound (c * 100) with hpdef
  have hp : 0 < p := by
    have hq : (0:ℚ) < (p:ℚ)/100 := by rw [← hcp]; exact hc
    by_contra hcon
    push_neg at hcon
    have : (p:ℚ) ≤ 0 := by exact_mod_cast hcon
    nlinarith
  set m0 : ℤ := jsRound (T * 100) with hm0def
  have hm0 : round2 T = (m0:ℚ)/100 := rfl
  set n : ℤ := Int.ceil (T / c) with hndef
  have hn1 : 1 ≤ n := Int.ceil_pos.2 (div_pos hT hc)
  have hkn : ((n.toNat : ℤ)) = n := Int.toNat_of_nonneg (by linarith)
  have hTle : T ≤ (n:ℚ) * c := by
    have h := Int.le_ceil (T / c)
    rw [div_le_iff₀ hc] at h
    exact h
  have hTgt : ((n:ℚ) - 1) * c < T := by
    have h := Int.ceil_lt_add_one (T / c)
    have h2 : (n:ℚ) - 1 < T / c := by linarith
    rw [← lt_div_iff₀ hc]
    exact h2
  have hb2 : m0 ≤ n * p := by
    have h1 : (m0:ℚ) ≤ T * 100 + 1/2 := Int.floor_le _
    have h3 : T * 100 ≤ (n:ℚ) * (p:ℚ) := by
      rw [hcp] at hTle
      nlinarith
    have h4 : (m0:ℚ) < ((n * p : ℤ):ℚ) + 1 := by push_cast; linarith
    have h5 : m0 < n * p + 1 := by exact_mod_cast h4
    omega
  have hb1 : (n - 1) * p ≤ m0 := by
    apply Int.le_floor.2
    have h1 : ((n:ℚ) - 1) * c * 100 < T * 100 := by nlinarith
    rw [hcp] at h1
    push_cast
    nlinarith
  have hb0 : 0 ≤ m0 := by nlinarith [hb1, hn1, hp]
  have hcl : calculateLoads T c = (n, loadsLoop ((p:ℚ)/100) n.toNat ((m0:ℚ)/100) 1) := by
    unfold calculateLoads
    rw [← hndef, ← hcp, hm0]
  obtain ⟨g1, g2, g3, g4⟩ := loadsLoop_cents p hp n.toNat m0 1
    (by rw [hkn]; linarith) (by rw [hkn]; linarith) hb0
  rw [hcl]
  refine ⟨rfl, g1, ?_, ?_, g4.trans hm0.symm⟩
  · intro q hq
    rw [hcp]
    exact g2 q hq
  · intro q hq
    rw [hcp]
    exact g3 q hq

/-- C10 amended, witnessed at 10 tons over a 4-ton capacity. -/
theorem C10_amended_loads_witness :
    (calculateLoads 10 4).1 = Int.ceil ((10:ℚ) / 4)
    ∧ (calculateLoads 10 4).2.map Prod.fst
        = List.range' 1 (Int.ceil ((10:ℚ) / 4)).toNat
    ∧ (∀ q ∈ (calculateLoads 10 4).2, q.2 ≤ (4:ℚ))
    ∧ (∀ q ∈ (calculateLoads 10 4).2.dropLast, q.2 = (4:ℚ))
    ∧ ((calculateLoads 10 4).2.map Prod.snd).sum = round2 10 :=
  C10_amended_loads 10 4 (by norm_num) (by norm_num)
    (by unfold round2 jsRound; norm_num)

end RockRunner
